import Mathlib

/-!
Verification of the report-aggregation engine of `core/views.py` (Django financial
consolidation app).  The definitions below are a shallow embedding of the
computational core of `pl_report_data`, `bs_report_data`, `upload_financial_data`
and `parse_period_header`: monetary amounts are modelled by `ℚ` (the source keeps
exact `Decimal` values through the aggregation), months by `Nat` indices, and the
Python dict lookups `financial_data[p][c].get(a, 0)` by a total function with
default `0`.
-/

namespace Conspy

/-- A `FinancialData` row: one amount for (company, account code, period, data type).
Mirrors the model used by `upload_financial_data` and both report views. -/
structure Fact where
  company : String
  account : String
  period : Nat
  dataType : String
  amount : ℚ
deriving DecidableEq

/-- The indexing step of both report views: facts are written into the nested dict
`financial_data[period][company_code][account_code] = fd.amount` (a later record for
the same key overwrites an earlier one, as Python dict assignment does), and the
rollup reads `financial_data[p][c].get(a, 0)` / `.get(a, Decimal('0'))`. -/
def lookupAmount (facts : List Fact) (p : Nat) (c a : String) : ℚ :=
  facts.foldl
    (fun acc f => if f.period = p ∧ f.company = c ∧ f.account = a then f.amount else acc) 0

/-- Sum of pointwise differences over a list splits into a difference of sums. -/
theorem sum_map_sub {α : Type} (l : List α) (f g : α → ℚ) :
    (l.map (fun x => f x - g x)).sum = (l.map f).sum - (l.map g).sum := by
  induction l with
  | nil => simp
  | cons x xs ih =>
    simp only [List.map_cons, List.sum_cons, ih]
    ring

/-- The values carried by one derived report row: per-(period, company) cells, the
per-period `TOTAL` cell, per-company grand totals and the overall grand total
(`grand_totals['TOTAL']`). -/
structure RowVals where
  cell : Nat → String → ℚ
  periodTotal : Nat → ℚ
  grand : String → ℚ
  grandTotal : ℚ

/-- A P&L total row (`TOTAL REVENUE` / `TOTAL EXPENSES`, views.py lines 1099-1156 and
1381-1439): the per-period company cell sums the section's accounts, the per-period
`TOTAL` sums those over `pl_companies`, company grand totals sum over periods, and
`grand_totals['TOTAL']` is the triple sum over periods, companies and accounts. -/
def totalRow (facts : List Fact) (periods : List Nat) (comps accts : List String) : RowVals where
  cell := fun p c => (accts.map (fun a => lookupAmount facts p c a)).sum
  periodTotal := fun p =>
    (comps.map (fun c => (accts.map (fun a => lookupAmount facts p c a)).sum)).sum
  grand := fun c =>
    (periods.map (fun p => (accts.map (fun a => lookupAmount facts p c a)).sum)).sum
  grandTotal :=
    (periods.map (fun p =>
      (comps.map (fun c => (accts.map (fun a => lookupAmount facts p c a)).sum)).sum)).sum

/-- The `NET INCOME` row (views.py lines 1442-1480): every cell is the difference of
the already-computed `TOTAL REVENUE` and `TOTAL EXPENSES` rows — per company per
period, the per-period `TOTAL` sums those differences over companies, and each grand
total is the difference of the corresponding grand totals of the two rows. -/
def netIncomeRow (rev ex : RowVals) (comps : List String) : RowVals where
  cell := fun p c => rev.cell p c - ex.cell p c
  periodTotal := fun p => (comps.map (fun c => rev.cell p c - ex.cell p c)).sum
  grand := fun c => rev.grand c - ex.grand c
  grandTotal := rev.grandTotal - ex.grandTotal

/-- `TOTAL REVENUE` as assembled over the income accounts. -/
def plRevenueRow (facts : List Fact) (periods : List Nat)
    (comps incomeAccts : List String) : RowVals :=
  totalRow facts periods comps incomeAccts

/-- `TOTAL EXPENSES` as assembled over the expense accounts. -/
def plExpenseRow (facts : List Fact) (periods : List Nat)
    (comps expenseAccts : List String) : RowVals :=
  totalRow facts periods comps expenseAccts

/-- `NET INCOME` as built by `pl_report_data` from the two total rows. -/
def plNetIncomeRow (facts : List Fact) (periods : List Nat)
    (comps incomeAccts expenseAccts : List String) : RowVals :=
  netIncomeRow (plRevenueRow facts periods comps incomeAccts)
    (plExpenseRow facts periods comps expenseAccts) comps

/-- C1: the NET INCOME row's overall grand total equals TOTAL REVENUE's grand total
minus TOTAL EXPENSES' grand total; the same difference identity holds for every
per-period `TOTAL` cell, every per-company grand total and every individual
(period, company) cell, so NET INCOME is exactly the arithmetic difference of the
two already-computed total rows. -/
theorem net_income_is_difference_of_total_rows (facts : List Fact) (periods : List Nat)
    (comps incomeAccts expenseAccts : List String) :
    (plNetIncomeRow facts periods comps incomeAccts expenseAccts).grandTotal
      = (plRevenueRow facts periods comps incomeAccts).grandTotal
        - (plExpenseRow facts periods comps expenseAccts).grandTotal
    ∧ (∀ p, (plNetIncomeRow facts periods comps incomeAccts expenseAccts).periodTotal p
        = (plRevenueRow facts periods comps incomeAccts).periodTotal p
          - (plExpenseRow facts periods comps expenseAccts).periodTotal p)
    ∧ (∀ c, (plNetIncomeRow facts periods comps incomeAccts expenseAccts).grand c
        = (plRevenueRow facts periods comps incomeAccts).grand c
          - (plExpenseRow facts periods comps expenseAccts).grand c)
    ∧ (∀ p c, (plNetIncomeRow facts periods comps incomeAccts expenseAccts).cell p c
        = (plRevenueRow facts periods comps incomeAccts).cell p c
          - (plExpenseRow facts periods comps expenseAccts).cell p c) := by
  refine ⟨rfl, fun p => ?_, fun c => rfl, fun p c => rfl⟩
  simp only [plNetIncomeRow, netIncomeRow, plRevenueRow, plExpenseRow, totalRow]
  exact sum_map_sub comps _ _

/-- Per-period `TOTAL` of a Balance-Sheet `parent_total` row (views.py lines
2433-2446): for the given period, sum over the companies, over each sub-category's
account list, over the accounts, of the indexed amounts. -/
def bsSectionPeriodTotal (facts : List Fact) (comps : List String)
    (sections : List (List String)) (p : Nat) : ℚ :=
  (comps.map (fun c =>
    (sections.map (fun accts => (accts.map (fun a => lookupAmount facts p c a)).sum)).sum)).sum

/-- `grand_totals['TOTAL']` of a Balance-Sheet `parent_total` row (views.py lines
2456-2461): the same nested sum, additionally over the periods, iterating
`companies_with_data`. -/
def bsSectionGrandTotal (facts : List Fact) (periods : List Nat) (cwd : List String)
    (sections : List (List String)) : ℚ :=
  (periods.map (fun p => bsSectionPeriodTotal facts cwd sections p)).sum

/-- The single scalar `check_value = assets_total - liabilities_total - equity_total`
computed at views.py lines 2479-2504, where each section total is summed over all
periods and `companies_with_data`. -/
def bsCheckValue (facts : List Fact) (periods : List Nat) (cwd : List String)
    (assetSections liabSections equitySections : List (List String)) : ℚ :=
  bsSectionGrandTotal facts periods cwd assetSections
    - bsSectionGrandTotal facts periods cwd liabSections
    - bsSectionGrandTotal facts periods cwd equitySections

/-- The CHECK row's per-period `TOTAL` cell (views.py line 2510): the dict
comprehension `{period: {'TOTAL': float(check_value or 0)} for period in periods}`
writes the one scalar `check_value` into every period. -/
def bsCheckRowPeriodTotal (facts : List Fact) (periods : List Nat) (cwd : List String)
    (assetSections liabSections equitySections : List (List String)) (_p : Nat) : ℚ :=
  bsCheckValue facts periods cwd assetSections liabSections equitySections

/-- The CHECK row's `grand_totals['TOTAL']` (views.py line 2511). -/
def bsCheckRowGrandTotal (facts : List Fact) (periods : List Nat) (cwd : List String)
    (assetSections liabSections equitySections : List (List String)) : ℚ :=
  bsCheckValue facts periods cwd assetSections liabSections equitySections

/-- Concrete Balance-Sheet dataset refuting the per-period part of the CHECK law:
one asset fact of 10 in period 1 and an equity account with no facts. -/
def c2Facts : List Fact := [⟨"A", "1000", 1, "Actual", 10⟩]

/-- C2 counterexample: with asset account `1000` holding 10 in period 1 only (and an
equity account with no data), the CHECK row's cell at period 2 is the grand-total
difference 10, not the per-period difference `0 - 0 - 0 = 0` that the claim
requires. -/
theorem check_row_not_per_period_counterexample :
    bsCheckRowPeriodTotal c2Facts [1, 2] ["A"] [["1000"]] [] [["3000"]] 2
        = 10
      ∧ bsSectionPeriodTotal c2Facts ["A"] [["1000"]] 2
          - bsSectionPeriodTotal c2Facts ["A"] [] 2
          - bsSectionPeriodTotal c2Facts ["A"] [["3000"]] 2 = 0
      ∧ bsCheckRowPeriodTotal c2Facts [1, 2] ["A"] [["1000"]] [] [["3000"]] 2
          ≠ bsSectionPeriodTotal c2Facts ["A"] [["1000"]] 2
            - bsSectionPeriodTotal c2Facts ["A"] [] 2
            - bsSectionPeriodTotal c2Facts ["A"] [["3000"]] 2 := by
  refine ⟨?_, ?_, ?_⟩ <;>
    · simp +decide only [bsCheckRowPeriodTotal, bsCheckValue, bsSectionGrandTotal,
        bsSectionPeriodTotal, c2Facts, lookupAmount, List.map_cons, List.map_nil,
        List.sum_cons, List.sum_nil, List.foldl_cons, List.foldl_nil, if_true, if_false]
      norm_num

/-- C2 amended: every per-period cell of the CHECK row carries the single scalar
`check_value`, which equals TOTAL ASSETS minus TOTAL LIABILITIES minus TOTAL EQUITY
at the grand-total level (sums over `companies_with_data`); equivalently it is the
sum over the periods of the per-period section differences taken over
`companies_with_data` — but it is not the per-period difference itself. -/
theorem check_row_carries_grand_difference (facts : List Fact) (periods : List Nat)
    (cwd : List String) (aS lS eS : List (List String)) :
    (∀ p, bsCheckRowPeriodTotal facts periods cwd aS lS eS p
        = bsCheckValue facts periods cwd aS lS eS)
    ∧ bsCheckRowGrandTotal facts periods cwd aS lS eS
        = bsSectionGrandTotal facts periods cwd aS
          - bsSectionGrandTotal facts periods cwd lS
          - bsSectionGrandTotal facts periods cwd eS
    ∧ bsCheckRowGrandTotal facts periods cwd aS lS eS
        = (periods.map (fun p =>
            bsSectionPeriodTotal facts cwd aS p
              - bsSectionPeriodTotal facts cwd lS p
              - bsSectionPeriodTotal facts cwd eS p)).sum := by
  refine ⟨fun p => rfl, rfl, ?_⟩
  simp only [bsCheckRowGrandTotal, bsCheckValue, bsSectionGrandTotal]
  rw [show (fun p => bsSectionPeriodTotal facts cwd aS p - bsSectionPeriodTotal facts cwd lS p
        - bsSectionPeriodTotal facts cwd eS p)
      = (fun p => (bsSectionPeriodTotal facts cwd aS p - bsSectionPeriodTotal facts cwd lS p)
        - bsSectionPeriodTotal facts cwd eS p) from rfl,
    sum_map_sub periods _ (fun p => bsSectionPeriodTotal facts cwd eS p),
    sum_map_sub periods _ (fun p => bsSectionPeriodTotal facts cwd lS p)]

/-- Nonnegativity of a sum of absolute values. -/
theorem sum_map_abs_nonneg {α : Type} (l : List α) (f : α → ℚ) :
    0 ≤ (l.map (fun x => |f x|)).sum := by
  induction l with
  | nil => simp
  | cons x xs ih =>
    simp only [List.map_cons, List.sum_cons]
    exact add_nonneg (abs_nonneg _) ih

/-- A sum of absolute values vanishes exactly when every term vanishes. -/
theorem sum_map_abs_eq_zero_iff {α : Type} (l : List α) (f : α → ℚ) :
    (l.map (fun x => |f x|)).sum = 0 ↔ ∀ x ∈ l, f x = 0 := by
  induction l with
  | nil => simp
  | cons x xs ih =>
    simp only [List.map_cons, List.sum_cons, List.mem_cons]
    rw [add_eq_zero_iff_of_nonneg (abs_nonneg _) (sum_map_abs_nonneg xs f), abs_eq_zero, ih]
    constructor
    · rintro ⟨h0, hrest⟩ y (rfl | hy)
      · exact h0
      · exact hrest y hy
    · intro h
      exact ⟨h x (Or.inl rfl), fun y hy => h y (Or.inr hy)⟩

/-- The P&L `has_non_zero_value` flag for an account row (views.py lines 1020-1030 /
1219-1230): true when some indexed (period, company) amount for the account differs
from zero; the row is appended to `report_data` only when it is true. -/
def plAccountRowEmitted (facts : List Fact) (periods : List Nat) (comps : List String)
    (a : String) : Bool :=
  periods.any (fun p => comps.any (fun c => decide (lookupAmount facts p c a ≠ 0)))

/-- Row tags used by `pl_report_data` (`'type'` field of the in-memory rows). -/
inductive PLRowType
  | sub_header
  | account
  | sub_total
  | section_header
  | total
  | net_income
deriving DecidableEq

/-- A P&L report row reduced to what the sparsity law inspects: its type tag and
its account code. -/
structure PLRow where
  rtype : PLRowType
  code : String
deriving DecidableEq

/-- The rows one P&L sub-category contributes to `report_data` (views.py lines
987-1097): the `sub_header` is appended unconditionally, each member account row
only when `has_non_zero_value`, and the `sub_total` unconditionally. -/
def plSubCategoryRows (facts : List Fact) (periods : List Nat) (comps : List String)
    (accts : List String) : List PLRow :=
  [⟨PLRowType.sub_header, ""⟩]
    ++ (accts.filter (fun a => plAccountRowEmitted facts periods comps a)).map
        (fun a => ⟨PLRowType.account, a⟩)
    ++ [⟨PLRowType.sub_total, ""⟩]

/-- Per-period `TOTAL` of a Balance-Sheet account row (views.py lines 2337-2347):
sum over companies of the indexed amount. -/
def bsAccountPeriodTotal (facts : List Fact) (comps : List String) (a : String)
    (p : Nat) : ℚ :=
  (comps.map (fun c => lookupAmount facts p c a)).sum

/-- The Balance-Sheet row filter for account rows (views.py lines 2637-2644): the
row is kept iff the sum over the selected periods of the absolute values of its
per-period `TOTAL` cells is non-zero. -/
def bsAccountRowKept (facts : List Fact) (periods : List Nat) (comps : List String)
    (a : String) : Bool :=
  decide ((periods.map (fun p => |bsAccountPeriodTotal facts comps a p|)).sum ≠ 0)

/-- Row tags used by `bs_report_data`. -/
inductive BSRowType
  | parent_header
  | sub_header
  | account
  | sub_total
  | parent_total
  | check_row
  | spacer
deriving DecidableEq

/-- The Balance-Sheet output filter (views.py lines 2628-2646): structural rows
(`parent_header`, `sub_header`, `sub_total`, `parent_total`, `check_row`, `spacer`)
are always kept; an `account` row is kept only by the absolute-total test. -/
def bsRowKept (facts : List Fact) (periods : List Nat) (comps : List String)
    (t : BSRowType) (a : String) : Bool :=
  match t with
  | BSRowType.account => bsAccountRowKept facts periods comps a
  | _ => true

/-- Balance-Sheet dataset where account `9000` has non-zero cells (+5 for company A,
-5 for company B in the same period) that cancel inside every per-period TOTAL. -/
def c3Facts : List Fact :=
  [⟨"A", "9000", 1, "Actual", 5⟩, ⟨"B", "9000", 1, "Actual", -5⟩]

/-- C3 counterexample: in the Balance-Sheet report, account `9000` has a non-zero
(period, entity) value, yet the row is dropped from `rowData` because its per-period
TOTALs (the only thing views.py lines 2637-2644 test) cancel to zero — refuting the
claim that a row with at least one non-zero value always appears. -/
theorem sparsity_bs_cancellation_counterexample :
    lookupAmount c3Facts 1 "A" "9000" ≠ 0
      ∧ bsRowKept c3Facts [1] ["A", "B"] BSRowType.account "9000" = false := by
  constructor
  · simp +decide only [lookupAmount, c3Facts, List.foldl_cons, List.foldl_nil]
  · simp only [bsRowKept, bsAccountRowKept, decide_eq_false_iff_not, not_not]
    simp +decide only [bsAccountPeriodTotal, lookupAmount, c3Facts, List.map_cons,
      List.map_nil, List.sum_cons, List.sum_nil, List.foldl_cons, List.foldl_nil]
    norm_num

/-- C3 amended: in the P&L report an account row is emitted iff some
(period, company) cell is non-zero, and the sub-header and sub-total of each
sub-category are always emitted; in the Balance-Sheet report an account row is kept
iff some per-period TOTAL (sum over companies) is non-zero — so BS rows whose
non-zero cells cancel within every period are dropped — and every structural row
type is always kept. -/
theorem sparsity_row_emission_amended (facts : List Fact) (periods : List Nat)
    (comps : List String) (a : String) (accts : List String) :
    (plAccountRowEmitted facts periods comps a = true
        ↔ ∃ p ∈ periods, ∃ c ∈ comps, lookupAmount facts p c a ≠ 0)
    ∧ (PLRow.mk PLRowType.account a ∈ plSubCategoryRows facts periods comps accts
        ↔ a ∈ accts ∧ plAccountRowEmitted facts periods comps a = true)
    ∧ PLRow.mk PLRowType.sub_header "" ∈ plSubCategoryRows facts periods comps accts
    ∧ PLRow.mk PLRowType.sub_total "" ∈ plSubCategoryRows facts periods comps accts
    ∧ (bsAccountRowKept facts periods comps a = true
        ↔ ∃ p ∈ periods, bsAccountPeriodTotal facts comps a p ≠ 0)
    ∧ bsRowKept facts periods comps BSRowType.parent_header a = true
    ∧ bsRowKept facts periods comps BSRowType.sub_header a = true
    ∧ bsRowKept facts periods comps BSRowType.sub_total a = true
    ∧ bsRowKept facts periods comps BSRowType.parent_total a = true
    ∧ bsRowKept facts periods comps BSRowType.check_row a = true
    ∧ bsRowKept facts periods comps BSRowType.spacer a = true := by
  refine ⟨?_, ?_, ?_, ?_, ?_, rfl, rfl, rfl, rfl, rfl, rfl⟩
  · simp [plAccountRowEmitted, List.any_eq_true]
  · simp [plSubCategoryRows, List.mem_append, List.mem_map, List.mem_filter]
  · simp [plSubCategoryRows]
  · simp [plSubCategoryRows]
  · simp only [bsAccountRowKept, decide_eq_true_eq, ne_eq,
      sum_map_abs_eq_zero_iff periods (fun p => bsAccountPeriodTotal facts comps a p)]
    push_neg
    rfl

/-- P&L grid-cell serialization (views.py lines 1805-1845): every numeric cell is
sent as `None if value == 0 or value is None else float(value)`, so zeros become
the explicit empty marker. -/
def plGridCell (v : ℚ) : Option ℚ := if v = 0 then none else some v

/-- Balance-Sheet grid-cell serialization (views.py lines 2589-2597):
`grid_row[field_name] = float(value or 0)` — always a literal number, zeros
included, never the empty marker. -/
def bsGridCell (v : ℚ) : Option ℚ := some v

/-- A Balance-Sheet account-row cell as serialized: the indexed amount (default 0)
passed through `bsGridCell`. -/
def bsGridRowCell (facts : List Fact) (p : Nat) (c a : String) : Option ℚ :=
  bsGridCell (lookupAmount facts p c a)

/-- Dataset for the C4 counterexample: account `9100` is non-zero in period 1, so
the row survives the Balance-Sheet filter, and has value 0 in period 2. -/
def c4Facts : List Fact := [⟨"A", "9100", 1, "Actual", 5⟩]

/-- C4 counterexample: the Balance-Sheet serializer emits the literal number 0 for
account `9100` in period 2 of an emitted row, not the empty marker the claim
requires for every report's zero-valued cells. -/
theorem bs_zero_cell_counterexample :
    bsRowKept c4Facts [1, 2] ["A"] BSRowType.account "9100" = true
      ∧ lookupAmount c4Facts 2 "A" "9100" = 0
      ∧ bsGridRowCell c4Facts 2 "A" "9100" = some 0
      ∧ bsGridRowCell c4Facts 2 "A" "9100" ≠ none := by
  refine ⟨?_, ?_, ?_, ?_⟩
  · simp only [bsRowKept, bsAccountRowKept, decide_eq_true_eq]
    simp +decide only [bsAccountPeriodTotal, lookupAmount, c4Facts, List.map_cons,
      List.map_nil, List.sum_cons, List.sum_nil, List.foldl_cons, List.foldl_nil]
    norm_num
  · simp +decide only [lookupAmount, c4Facts, List.foldl_cons, List.foldl_nil]
  · simp +decide only [bsGridRowCell, bsGridCell, lookupAmount, c4Facts,
      List.foldl_cons, List.foldl_nil]
  · simp [bsGridRowCell, bsGridCell]

/-- C4 amended: in the P&L serializer a cell is the empty marker iff its underlying
value is zero, while the per-period `TOTAL` and the overall grand total that feed
further arithmetic are plain ℚ-sums of the underlying numeric cells (missing
entries contribute a true zero, so no empty marker ever enters a sum); the
Balance-Sheet serializer instead always emits the literal number, zero included. -/
theorem zero_serialization_amended (v : ℚ) (facts : List Fact) (periods : List Nat)
    (comps accts : List String) (p : Nat) :
    (plGridCell v = none ↔ v = 0)
    ∧ (totalRow facts periods comps accts).periodTotal p
        = (comps.map (fun c => (totalRow facts periods comps accts).cell p c)).sum
    ∧ (totalRow facts periods comps accts).grandTotal
        = (periods.map (fun q => (totalRow facts periods comps accts).periodTotal q)).sum
    ∧ bsGridCell v = some v := by
  refine ⟨?_, rfl, rfl, rfl⟩
  constructor
  · intro h
    by_contra hv
    simp [plGridCell, hv] at h
  · intro h
    simp [plGridCell, h]

/-- `budget_amount` of a serialized P&L row in dual-stream Budget/Forecast mode
(views.py lines 1815-1833): `account` rows with a non-empty code read the
consolidated `budget_values` lookup directly; `sub_total`, `total` and `net_income`
rows read the row's precomputed per-period Budget value (default 0 when the key was
suppressed); every other row type keeps 0. -/
def plBudgetAmount (rt : PLRowType) (acctCode : String)
    (budgetValues : Nat → String → ℚ) (rowBudget : Nat → ℚ) (p : Nat) : ℚ :=
  match rt with
  | PLRowType.account => if acctCode = "" then 0 else budgetValues p acctCode
  | PLRowType.sub_total => rowBudget p
  | PLRowType.total => rowBudget p
  | PLRowType.net_income => rowBudget p
  | _ => 0

/-- The serialized per-period Budget cell (views.py line 1833):
`None if not budget_amount else float(budget_amount)`. -/
def plBudgetCell (rt : PLRowType) (acctCode : String) (budgetValues : Nat → String → ℚ)
    (rowBudget : Nat → ℚ) (p : Nat) : Option ℚ :=
  if plBudgetAmount rt acctCode budgetValues rowBudget p = 0 then none
  else some (plBudgetAmount rt acctCode budgetValues rowBudget p)

/-- `grand_total_Budget` (views.py lines 1847-1869): the non-empty per-period Budget
cells are summed over all periods and the result is suppressed to the empty marker
when the running sum is zero. -/
def plGrandTotalBudget (rt : PLRowType) (acctCode : String)
    (budgetValues : Nat → String → ℚ) (rowBudget : Nat → ℚ) (periods : List Nat) :
    Option ℚ :=
  if (periods.map (fun p => (plBudgetCell rt acctCode budgetValues rowBudget p).getD 0)).sum = 0
  then none
  else some ((periods.map (fun p => (plBudgetCell rt acctCode budgetValues rowBudget p).getD 0)).sum)

/-- Consolidated budget lookup for the C5 counterexample: account `4000` has budget
5 in period 1. -/
def c5BudgetValues : Nat → String → ℚ := fun p a => if p = 1 ∧ a = "4000" then 5 else 0

/-- C5 counterexample: a leaf `account` row with code `4000` receives the
consolidated budget value 5 in its period-1 Budget cell and in its grand-total
Budget field — refuting the claim that consolidated budget values are never
surfaced on individual leaf account rows. -/
theorem budget_on_leaf_row_counterexample :
    plBudgetCell PLRowType.account "4000" c5BudgetValues (fun _ => 0) 1 = some 5
      ∧ plBudgetCell PLRowType.account "4000" c5BudgetValues (fun _ => 0) 1 ≠ none
      ∧ plGrandTotalBudget PLRowType.account "4000" c5BudgetValues (fun _ => 0) [1] = some 5 := by
  refine ⟨?_, ?_, ?_⟩ <;>
    simp +decide [plGrandTotalBudget, plBudgetCell, plBudgetAmount, c5BudgetValues]

/-- C5 amended: in dual-stream Budget/Forecast mode the per-period Budget cell of a
serialized P&L row is the empty marker exactly when the underlying budget amount for
that period is zero; the underlying amount comes from the consolidated budget lookup
for `account` rows with a non-empty code (so leaf rows do surface budget values),
from the row's precomputed Budget entry for `sub_total`/`total`/`net_income` rows,
and is zero for all other row types; the grand-total Budget field is the empty
marker exactly when the sum of the per-period Budget cells is zero. -/
theorem budget_serialization_amended (rt : PLRowType) (acct : String)
    (bv : Nat → String → ℚ) (rb : Nat → ℚ) (p : Nat) (periods : List Nat) :
    (plBudgetCell rt acct bv rb p = none ↔ plBudgetAmount rt acct bv rb p = 0)
    ∧ plBudgetAmount PLRowType.account acct bv rb p = (if acct = "" then 0 else bv p acct)
    ∧ plBudgetAmount PLRowType.sub_total acct bv rb p = rb p
    ∧ plBudgetAmount PLRowType.total acct bv rb p = rb p
    ∧ plBudgetAmount PLRowType.net_income acct bv rb p = rb p
    ∧ plBudgetCell PLRowType.sub_header acct bv rb p = none
    ∧ plBudgetCell PLRowType.section_header acct bv rb p = none
    ∧ (plGrandTotalBudget rt acct bv rb periods = none
        ↔ (periods.map (fun q => (plBudgetCell rt acct bv rb q).getD 0)).sum = 0) := by
  refine ⟨?_, rfl, rfl, rfl, rfl, ?_, ?_, ?_⟩
  · unfold plBudgetCell
    split
    · simp [*]
    · simp [*]
  · simp [plBudgetCell, plBudgetAmount]
  · simp [plBudgetCell, plBudgetAmount]
  · unfold plGrandTotalBudget
    split
    · simp [*]
    · simp [*]

/-- A Chart-of-Accounts dimension record as the P&L hierarchy builder reads it. -/
structure ChartAccount where
  code : String
  accountType : String
  subCategory : Option String
  sortOrder : Int
deriving DecidableEq

/-- `acc.sub_category or 'UNCATEGORIZED'` (views.py line 922): a missing or empty
sub-category label falls back to the `UNCATEGORIZED` bucket. -/
def subKey (a : ChartAccount) : String :=
  match a.subCategory with
  | none => "UNCATEGORIZED"
  | some s => if s = "" then "UNCATEGORIZED" else s

/-- The keys of `grouped_data` in dict-insertion (first-seen) order, as produced by
the `setdefault` loop over `chart_accounts_all` (views.py lines 920-923) and read
back by `list(grouped_data.keys())` (line 935). -/
def groupKeys (accs : List ChartAccount) : List String :=
  accs.foldl (fun ks a => if subKey a ∈ ks then ks else ks ++ [subKey a]) []

/-- `grouped_data[s]`: the member accounts of one sub-category, appended in the
iteration order of `chart_accounts_all` (which the query orders by `sort_order`). -/
def groupMembers (accs : List ChartAccount) (s : String) : List ChartAccount :=
  accs.filter (fun a => decide (subKey a = s))

/-- views.py line 936: `[c for c in correct_order if c in all_sub] +
[c for c in all_sub if c not in correct_order]`. -/
def plStructure (correctOrder allSub : List String) : List String :=
  correctOrder.filter (fun c => decide (c ∈ allSub))
    ++ allSub.filter (fun c => decide (¬ c ∈ correctOrder))

/-- The canonical prefix of `pl_structure`: sub-categories of the ordering list that
actually occur, kept in the ordering list's order. -/
def canonicalPart (correctOrder allSub : List String) : List String :=
  correctOrder.filter (fun c => decide (c ∈ allSub))

/-- The appended suffix of `pl_structure`: the remaining sub-categories in their
first-seen order. -/
def extraPart (correctOrder allSub : List String) : List String :=
  allSub.filter (fun c => decide (¬ c ∈ correctOrder))

/-- C6: `pl_structure` is exactly the canonical ordering list's members (restricted
to sub-categories that occur, in the canonical order) followed by all remaining
sub-categories in first-seen order — the prefix preserves the canonical list's
order, the suffix preserves first-seen order, each covers everything it should —
and the member accounts of any sub-category keep the ascending `sort_order` of the
underlying query. -/
theorem subcategory_ordering (correctOrder : List String) (accs : List ChartAccount)
    (s : String)
    (hsorted : accs.Pairwise (fun a b => a.sortOrder ≤ b.sortOrder)) :
    plStructure correctOrder (groupKeys accs)
        = canonicalPart correctOrder (groupKeys accs)
          ++ extraPart correctOrder (groupKeys accs)
    ∧ (canonicalPart correctOrder (groupKeys accs)).Sublist correctOrder
    ∧ (extraPart correctOrder (groupKeys accs)).Sublist (groupKeys accs)
    ∧ (∀ x, x ∈ correctOrder → x ∈ groupKeys accs
        → x ∈ canonicalPart correctOrder (groupKeys accs))
    ∧ (∀ x, x ∈ groupKeys accs → ¬ x ∈ correctOrder
        → x ∈ extraPart correctOrder (groupKeys accs))
    ∧ (∀ x, x ∈ canonicalPart correctOrder (groupKeys accs)
        → x ∈ correctOrder ∧ x ∈ groupKeys accs)
    ∧ (∀ x, x ∈ extraPart correctOrder (groupKeys accs)
        → x ∈ groupKeys accs ∧ ¬ x ∈ correctOrder)
    ∧ (groupMembers accs s).Pairwise (fun a b => a.sortOrder ≤ b.sortOrder) := by
  refine ⟨rfl, List.filter_sublist _, List.filter_sublist _, ?_, ?_, ?_, ?_, ?_⟩
  · intro x hx1 hx2
    simp [canonicalPart, List.mem_filter, hx1, hx2]
  · intro x hx1 hx2
    simp [extraPart, List.mem_filter, hx1, hx2]
  · intro x hx
    simpa [canonicalPart, List.mem_filter] using hx
  · intro x hx
    simpa [extraPart, List.mem_filter] using hx
  · exact hsorted.sublist (List.filter_sublist _)

/-- Concrete chart rows (ascending sort order) for the C6 witness. -/
def c6Accs : List ChartAccount :=
  [⟨"4000", "INCOME", some "Revenue", 1⟩, ⟨"5000", "EXPENSE", some "Opex", 2⟩]

/-- C6 witness: the ordering theorem instantiated on a concrete sorted chart. -/
theorem subcategory_ordering_witness :
    (groupMembers c6Accs "Revenue").Pairwise (fun a b => a.sortOrder ≤ b.sortOrder) :=
  (subcategory_ordering ["Revenue"] c6Accs "Revenue"
    (by norm_num [c6Accs, List.pairwise_cons])).2.2.2.2.2.2.2

/-- The JSON result object of a report request, restricted to the fields the
empty-result policy concerns. -/
structure ReportResponse where
  columnDefs : List String
  rowData : List String
  error : Option String
  availableRange : Option (Nat × Nat)
deriving DecidableEq

/-- The P&L no-periods result (views.py lines 753-783): when other P&L periods
exist, an empty result annotated with an error message and the first-to-last
available range; otherwise an empty result with only the generic error message. -/
def plNoPeriodsResponse (allPlPeriods : List Nat) : ReportResponse :=
  match allPlPeriods with
  | [] =>
      ⟨[], [],
        some "No P&L data found. Please check if Income and Expense accounts are properly loaded.",
        none⟩
  | p :: rest =>
      ⟨[], [],
        some "No P&L data found for selected period. P&L data is available from suggested_start to suggested_end",
        some (p, (p :: rest).getLast (List.cons_ne_nil p rest))⟩

/-- The Balance-Sheet no-periods result (views.py lines 2225-2229): a bare empty
object with no error annotation and no range hint. -/
def bsNoPeriodsResponse : ReportResponse := ⟨[], [], none, none⟩

/-- C7 counterexample: the Balance-Sheet report answers a no-periods request with
an empty result object carrying no error message and no available-range hint,
refuting the claim that every report's empty result is annotated with an error
message. -/
theorem bs_no_periods_unannotated_counterexample :
    bsNoPeriodsResponse.columnDefs = [] ∧ bsNoPeriodsResponse.rowData = []
      ∧ bsNoPeriodsResponse.error = none ∧ bsNoPeriodsResponse.availableRange = none :=
  ⟨rfl, rfl, rfl, rfl⟩

/-- C7 amended: a no-periods P&L request yields an explicit empty result (empty
columnDefs and rowData) annotated with an error message, and carries an
available-range hint exactly when P&L data exists outside the requested range, the
hint's endpoints being actual available periods (never a guessed or expanded
range); a no-periods Balance-Sheet request yields the bare empty result with no
annotation. -/
theorem no_periods_empty_result_amended (allPl : List Nat) :
    (plNoPeriodsResponse allPl).columnDefs = []
    ∧ (plNoPeriodsResponse allPl).rowData = []
    ∧ ((plNoPeriodsResponse allPl).error).isSome = true
    ∧ (((plNoPeriodsResponse allPl).availableRange).isSome = true ↔ allPl ≠ [])
    ∧ (∀ s e, (plNoPeriodsResponse allPl).availableRange = some (s, e)
        → s ∈ allPl ∧ e ∈ allPl)
    ∧ bsNoPeriodsResponse.columnDefs = []
    ∧ bsNoPeriodsResponse.rowData = []
    ∧ bsNoPeriodsResponse.error = none := by
  cases allPl with
  | nil =>
      refine ⟨rfl, rfl, rfl, by simp [plNoPeriodsResponse], ?_, rfl, rfl, rfl⟩
      intro s e h
      simp [plNoPeriodsResponse] at h
  | cons p rest =>
      refine ⟨rfl, rfl, rfl, by simp [plNoPeriodsResponse], ?_, rfl, rfl, rfl⟩
      intro s e h
      simp only [plNoPeriodsResponse, Option.some.injEq, Prod.mk.injEq] at h
      obtain ⟨hs, he⟩ := h
      subst hs
      subst he
      exact ⟨List.mem_cons_self p rest, List.getLast_mem (List.cons_ne_nil p rest)⟩

/-- C7 witness: the amended theorem applied to the concrete available-period list
`[3, 5]`, whose hint endpoints are members of the list. -/
theorem no_periods_empty_result_witness : 3 ∈ [3, 5] ∧ 5 ∈ [3, 5] :=
  (no_periods_empty_result_amended [3, 5]).2.2.2.2.1 3 5 rfl

/-- Whether an existing fact is selected for backup and deletion by
`upload_financial_data` (views.py lines 470-475 and 500-507): same company, same
data type, period among the uploaded period columns that already had data, and an
account code that appears in the uploaded file. -/
def isConflict (company dataType : String) (deletePeriods : List Nat)
    (uploadedCodes : List String) (f : Fact) : Bool :=
  decide (f.company = company) && decide (f.dataType = dataType)
    && decide (f.period ∈ deletePeriods) && decide (f.account ∈ uploadedCodes)

/-- `existing_periods` (views.py lines 432-440): the uploaded period columns for
which any fact of the same company and data type already exists, regardless of
account code. -/
def existingUploadPeriods (db : List Fact) (company dataType : String)
    (periodCols : List Nat) : List Nat :=
  periodCols.filter (fun p =>
    db.any (fun f => decide (f.company = company) && decide (f.dataType = dataType)
      && decide (f.period = p)))

/-- The records written into the `DataBackup` snapshot (views.py lines 466-491):
exactly the facts the deletion step is about to remove. -/
def backupRecords (db : List Fact) (company dataType : String) (periodCols : List Nat)
    (uploadedCodes : List String) : List Fact :=
  db.filter (fun f =>
    isConflict company dataType (existingUploadPeriods db company dataType periodCols)
      uploadedCodes f)

/-- The fact store after the deletion step (views.py lines 499-507): only facts
matching company, data type, an existing uploaded period and an uploaded account
code are removed. -/
def afterDelete (db : List Fact) (company dataType : String) (periodCols : List Nat)
    (uploadedCodes : List String) : List Fact :=
  db.filter (fun f =>
    !(isConflict company dataType (existingUploadPeriods db company dataType periodCols)
      uploadedCodes f))

/-- The fact store after a fully successful upload: deletion followed by insertion
of the parsed rows (views.py lines 509-569). -/
def uploadResult (db : List Fact) (company dataType : String) (periodCols : List Nat)
    (uploadedCodes : List String) (newRows : List Fact) : List Fact :=
  afterDelete db company dataType periodCols uploadedCodes ++ newRows

/-- C8: re-uploading for the same (company, period, data-type) combination backs up
and deletes exactly the existing facts whose account codes appear in the uploaded
file; every fact whose account code is not in the file — and in particular every
such fact for the same company, period and data type — survives the upload
unchanged (the record itself, amount included, is still present). -/
theorem selective_overwrite_frame (db : List Fact) (company dataType : String)
    (periodCols : List Nat) (uploadedCodes : List String) (newRows : List Fact)
    (f : Fact) (hf : f ∈ db) (hcode : ¬ f.account ∈ uploadedCodes) :
    f ∈ uploadResult db company dataType periodCols uploadedCodes newRows
    ∧ (∀ g ∈ db, g ∉ afterDelete db company dataType periodCols uploadedCodes
        → g ∈ backupRecords db company dataType periodCols uploadedCodes)
    ∧ (∀ g ∈ db,
        (g ∉ afterDelete db company dataType periodCols uploadedCodes
          ↔ isConflict company dataType
              (existingUploadPeriods db company dataType periodCols) uploadedCodes g = true))
    ∧ (∀ g, g ∈ backupRecords db company dataType periodCols uploadedCodes
        ↔ g ∈ db ∧ isConflict company dataType
            (existingUploadPeriods db company dataType periodCols) uploadedCodes g = true) := by
  have hiff : ∀ g ∈ db,
      (g ∉ afterDelete db company dataType periodCols uploadedCodes
        ↔ isConflict company dataType
            (existingUploadPeriods db company dataType periodCols) uploadedCodes g = true) := by
    intro g hg
    constructor
    · intro hnot
      cases h : isConflict company dataType
          (existingUploadPeriods db company dataType periodCols) uploadedCodes g with
      | true => rfl
      | false =>
          exact absurd (List.mem_filter.mpr ⟨hg, by rw [h]; rfl⟩ :
            g ∈ afterDelete db company dataType periodCols uploadedCodes) hnot
    · intro hc hmem
      have h2 := (List.mem_filter.mp
        (hmem : g ∈ (db.filter (fun f =>
          !(isConflict company dataType
            (existingUploadPeriods db company dataType periodCols) uploadedCodes f))))).2
      rw [hc] at h2
      simp at h2
  refine ⟨?_, ?_, hiff, ?_⟩
  · refine List.mem_append_left _ (List.mem_filter.mpr ⟨hf, ?_⟩)
    simp [isConflict, hcode]
  · intro g hg hnot
    exact List.mem_filter.mpr ⟨hg, (hiff g hg).mp hnot⟩
  · intro g
    simp [backupRecords, List.mem_filter]

/-- The two facts of the spec's re-upload scenario: accounts `4000` and `5000` for
company `F2001` in the same period. -/
def c8Db : List Fact :=
  [⟨"F2001", "4000", 1, "Actual", 100⟩, ⟨"F2001", "5000", 1, "Actual", 40⟩]

/-- C8 witness: after re-uploading a file covering only account `4000`, the
untouched `5000` record (amount 40) is still present. -/
theorem selective_overwrite_witness :
    (⟨"F2001", "5000", 1, "Actual", 40⟩ : Fact)
      ∈ uploadResult c8Db "F2001" "Actual" [1] ["4000"]
          [⟨"F2001", "4000", 1, "Actual", 150⟩] :=
  (selective_overwrite_frame c8Db "F2001" "Actual" [1] ["4000"]
    [⟨"F2001", "4000", 1, "Actual", 150⟩]
    ⟨"F2001", "5000", 1, "Actual", 40⟩ (by simp [c8Db]) (by simp)).1

/-- The upload write-path with a failure part-way (views.py lines 465-569): there is
no transaction wrapper around backup, deletion and insertion — rows are inserted one
at a time inside a per-row try/except loop, and the outer handler merely returns an
error response — so when an exception stops the loop after `k` inserts, the deletion
and the first `k` inserts stay committed and nothing is rolled back. -/
def uploadAborted (db : List Fact) (company dataType : String) (periodCols : List Nat)
    (uploadedCodes : List String) (newRows : List Fact) (insertedBeforeFailure : Nat) :
    List Fact :=
  afterDelete db company dataType periodCols uploadedCodes
    ++ newRows.take insertedBeforeFailure

/-- Initial fact store for the C9 failing scenario. -/
def c9Db : List Fact :=
  [⟨"F2001", "4000", 1, "Actual", 100⟩, ⟨"F2001", "5000", 1, "Actual", 40⟩]

/-- C9: an upload of a replacement value for account `4000` that fails before its
first insert (after the conflicting record was already deleted) leaves the store in
a partially-overwritten state — the original `4000` fact is gone and the store does
not equal its pre-upload contents, contradicting the all-or-nothing claim. -/
theorem upload_not_atomic_failing_input :
    uploadAborted c9Db "F2001" "Actual" [1] ["4000"]
        [⟨"F2001", "4000", 1, "Actual", 150⟩] 0 ≠ c9Db
    ∧ (⟨"F2001", "4000", 1, "Actual", 100⟩ : Fact) ∈ c9Db
    ∧ ¬ (⟨"F2001", "4000", 1, "Actual", 100⟩ : Fact)
        ∈ uploadAborted c9Db "F2001" "Actual" [1] ["4000"]
            [⟨"F2001", "4000", 1, "Actual", 150⟩] 0 := by
  refine ⟨?_, by simp [c9Db], ?_⟩ <;>
    simp +decide [uploadAborted, afterDelete, isConflict, existingUploadPeriods, c9Db]

/-- Python's `strptime` interpretation of a two-digit `%y` year, which the source's
string-format branch relies on: values 0-68 map to 2000-2068 and 69-99 map to
1969-1999. -/
def strptimeTwoDigitYear (yy : Nat) : Nat :=
  if yy ≤ 68 then 2000 + yy else 1900 + yy

/-- `parse_period_header` on a two-digit-year header such as `"Jan-69"` parsed by
the `'%b-%y'` / `'%y-%b'` formats (views.py lines 109-129): strptime resolves the
two-digit year, then the `parsed_date.year < 100` fix-up adds 2000 (it can never
fire, because strptime already returned a four-digit year), then the 2020-2099
validation; failures yield `none` rather than raising. -/
def parsePeriodHeaderBY (month yy : Nat) : Option (Nat × Nat × Nat) :=
  let y0 := strptimeTwoDigitYear yy
  let y1 := if y0 < 100 then 2000 + y0 else y0
  if 2020 ≤ y1 ∧ y1 ≤ 2099 then some (y1, month, 1) else none

/-- `parse_period_header` on a four-digit-year header such as `"2024-01"` (formats
`'%Y-%m'`, `'%m/%Y'`, `'%Y/%m'`, `'%B %Y'`, `'%Y %B'`): the first day of the month
when the year lies in 2020-2099, otherwise `none`. -/
def parsePeriodHeaderYM (year month : Nat) : Option (Nat × Nat × Nat) :=
  if 2020 ≤ year ∧ year ≤ 2099 then some (year, month, 1) else none

/-- C10: the header `"Jan-69"` is rejected (`none`) although 2000 + 69 = 2069 lies
inside the accepted 2020-2099 window — strptime maps `69` to 1969 and the code's
own two-digit fix-up is dead — while four-digit years behave as claimed: in-range
years give the first of the month and out-of-range years give `none`. -/
theorem two_digit_year_divergence :
    parsePeriodHeaderBY 1 69 = none
    ∧ strptimeTwoDigitYear 69 = 1969
    ∧ (2020 ≤ 2000 + 69 ∧ 2000 + 69 ≤ 2099)
    ∧ parsePeriodHeaderBY 1 24 = some (2024, 1, 1)
    ∧ parsePeriodHeaderBY 1 5 = none
    ∧ parsePeriodHeaderYM 2024 5 = some (2024, 5, 1)
    ∧ parsePeriodHeaderYM 2019 5 = none
    ∧ parsePeriodHeaderYM 2100 5 = none := by
  decide

end Conspy
